import Mathlib

/-!
# The enclave system-call dispatcher (`enclave/core/syscall.c`)

A shallow embedding of `_syscall`, the switch that routes a numeric operation
code and six machine words to the device layer (`oe_open`, `oe_read`, ...),
together with theorems about its result, its error state and the device
operations it invokes.

Conventions of the embedding (LP64, as on x86-64):

* a `long` is an `Int` in `[-2^63, 2^63)`; the casts the dispatcher applies to
  its argument words are the functions `castInt`, `castUInt`, `castULong`,
  `castPtr` and `castLong` below;
* `oe_errno` is a field of the state that is threaded through the call;
* the device layer and the other external functions are a parameter
  (`Extern`); every call made to it is appended to a log kept in the state;
* the `OE_SYS_*`, `ENOENT`, `ENOSYS` and `OE_O_*` macros come from headers and
  are a parameter (`Config`).
-/

namespace Syscall

/-! ## Integer conversions -/

/-- The C cast `(int)x` of a `long`: wrap to 32 bits, two's complement. -/
def castInt (x : Int) : Int := (x + 2 ^ 31) % 2 ^ 32 - 2 ^ 31

/-- The C casts `(unsigned int)x`, `(uint32_t)x`, `(mode_t)x`, `(socklen_t)x`. -/
def castUInt (x : Int) : Int := x % 2 ^ 32

/-- The C casts `(unsigned long)x`, `(size_t)x`, `(nfds_t)x`. -/
def castULong (x : Int) : Int := x % 2 ^ 64

/-- The cast of a `long` to a pointer: the address, as an unsigned 64-bit value. -/
def castPtr (x : Int) : Int := x % 2 ^ 64

/-- The C cast `(long)x` of an unsigned 64-bit value. -/
def castLong (x : Int) : Int := (x + 2 ^ 63) % 2 ^ 64 - 2 ^ 63

/-- The values a `long` can hold. -/
def isLong (x : Int) : Prop := -(2 ^ 63) ≤ x ∧ x < 2 ^ 63

instance (x : Int) : Decidable (isLong x) := by
  unfold isLong
  exact inferInstance

/-! ## Case labels and external calls -/

/-- The case labels of the switch in `_syscall`, in source order. -/
inductive Label where
  | OE_SYS_creat
  | OE_SYS_open
  | OE_SYS_lseek
  | OE_SYS_readv
  | OE_SYS_writev
  | OE_SYS_read
  | OE_SYS_write
  | OE_SYS_close
  | OE_SYS_dup
  | OE_SYS_dup2
  | OE_SYS_stat
  | OE_SYS_link
  | OE_SYS_unlink
  | OE_SYS_rename
  | OE_SYS_truncate
  | OE_SYS_mkdir
  | OE_SYS_rmdir
  | OE_SYS_access
  | OE_SYS_getdents
  | OE_SYS_getdents64
  | OE_SYS_ioctl
  | OE_SYS_fcntl
  | OE_SYS_mount
  | OE_SYS_umount2
  | OE_SYS_getcwd
  | OE_SYS_chdir
  | OE_SYS_socket
  | OE_SYS_connect
  | OE_SYS_setsockopt
  | OE_SYS_getsockopt
  | OE_SYS_getpeername
  | OE_SYS_getsockname
  | OE_SYS_bind
  | OE_SYS_listen
  | OE_SYS_accept
  | OE_SYS_sendto
  | OE_SYS_recvfrom
  | OE_SYS_sendmsg
  | OE_SYS_recvmsg
  | OE_SYS_socketpair
  | OE_SYS_shutdown
  | OE_SYS_uname
  | OE_SYS_select
  | OE_SYS_poll
  | OE_SYS_epoll_create
  | OE_SYS_epoll_create1
  | OE_SYS_epoll_wait
  | OE_SYS_epoll_pwait
  | OE_SYS_epoll_wait_old
  | OE_SYS_epoll_ctl
  | OE_SYS_epoll_ctl_old
  | OE_SYS_eventfd
  | OE_SYS_eventfd2
  | OE_SYS_exit_group
  | OE_SYS_exit
  | OE_SYS_getpid
  | OE_SYS_getuid
  | OE_SYS_geteuid
  | OE_SYS_getppid
  | OE_SYS_getpgrp
  | OE_SYS_rt_sigaction
  | OE_SYS_kill
  deriving DecidableEq

open Label

/-- Every case label, in source order. -/
def Label.all : List Label :=
  [OE_SYS_creat, OE_SYS_open, OE_SYS_lseek, OE_SYS_readv, OE_SYS_writev,
   OE_SYS_read, OE_SYS_write, OE_SYS_close, OE_SYS_dup, OE_SYS_dup2,
   OE_SYS_stat, OE_SYS_link, OE_SYS_unlink, OE_SYS_rename, OE_SYS_truncate,
   OE_SYS_mkdir, OE_SYS_rmdir, OE_SYS_access, OE_SYS_getdents,
   OE_SYS_getdents64, OE_SYS_ioctl, OE_SYS_fcntl, OE_SYS_mount,
   OE_SYS_umount2, OE_SYS_getcwd, OE_SYS_chdir, OE_SYS_socket,
   OE_SYS_connect, OE_SYS_setsockopt, OE_SYS_getsockopt, OE_SYS_getpeername,
   OE_SYS_getsockname, OE_SYS_bind, OE_SYS_listen, OE_SYS_accept,
   OE_SYS_sendto, OE_SYS_recvfrom, OE_SYS_sendmsg, OE_SYS_recvmsg,
   OE_SYS_socketpair, OE_SYS_shutdown, OE_SYS_uname, OE_SYS_select,
   OE_SYS_poll, OE_SYS_epoll_create, OE_SYS_epoll_create1, OE_SYS_epoll_wait,
   OE_SYS_epoll_pwait, OE_SYS_epoll_wait_old, OE_SYS_epoll_ctl,
   OE_SYS_epoll_ctl_old, OE_SYS_eventfd, OE_SYS_eventfd2, OE_SYS_exit_group,
   OE_SYS_exit, OE_SYS_getpid, OE_SYS_getuid, OE_SYS_geteuid, OE_SYS_getppid,
   OE_SYS_getpgrp, OE_SYS_rt_sigaction, OE_SYS_kill]

/-- A call across the boundary of the dispatcher, with the typed arguments it
is given. Pointers are addresses; `oe_stat` is handed the address of the
local `buf` of its case, which is not an argument word. -/
inductive Call where
  | oe_open (pathname flags mode : Int)
  | oe_lseek (fd off whence : Int)
  | oe_readv (fd iov iovcnt : Int)
  | oe_writev (fd iov iovcnt : Int)
  | oe_read (fd buf count : Int)
  | oe_write (fd buf count : Int)
  | oe_close (fd : Int)
  | oe_dup (fd : Int)
  | oe_dup2 (fd newfd : Int)
  | oe_stat (pathname : Int)
  | oe_link (oldpath newpath : Int)
  | oe_unlink (pathname : Int)
  | oe_rename (oldpath newpath : Int)
  | oe_truncate (path length : Int)
  | oe_mkdir (pathname mode : Int)
  | oe_rmdir (pathname : Int)
  | oe_access (pathname mode : Int)
  | oe_getdents (fd ent count : Int)
  | oe_ioctl (fd request p1 p2 p3 p4 : Int)
  | oe_fcntl (fd cmd arg : Int)
  | oe_mount (source target fstype flags data : Int)
  | oe_umount (target : Int)
  | oe_getcwd (buf size : Int)
  | oe_chdir (path : Int)
  | oe_socket (domain type protocol : Int)
  | oe_connect (sd addr addrlen : Int)
  | oe_setsockopt (sockfd level optname optval optlen : Int)
  | oe_getsockopt (sockfd level optname optval optlen : Int)
  | oe_getpeername (sockfd addr addrlen : Int)
  | oe_getsockname (sockfd addr addrlen : Int)
  | oe_bind (sockfd addr addrlen : Int)
  | oe_listen (sockfd backlog : Int)
  | oe_accept (sockfd addr addrlen : Int)
  | oe_sendto (sockfd buf len flags dest_add addrlen : Int)
  | oe_recvfrom (sockfd buf len flags dest_add addrlen : Int)
  | oe_sendmsg (sockfd buf flags : Int)
  | oe_recvmsg (sockfd buf flags : Int)
  | oe_socketpair (domain type protocol sv : Int)
  | oe_shutdown (sockfd how : Int)
  | oe_uname (buf : Int)
  | oe_select (nfds readfds writefds exceptfds tmo : Int)
  | oe_poll (fds nfds millis : Int)
  | oe_epoll_create (size : Int)
  | oe_epoll_create1 (flags : Int)
  | oe_epoll_wait (epfd events maxevents timeout : Int)
  | oe_epoll_pwait (epfd events maxevents timeout sigmask : Int)
  | oe_epoll_ctl (epfd op fd event : Int)
  | oe_eventfd (initval flags : Int)
  | oe_exit (status : Int)
  | oe_getpid
  | oe_getuid
  | oe_geteuid
  | oe_getppid
  | oe_getpgrp
  | oe_signal (signum act oact : Int)
  | oe_kill (pid signum : Int)

/-! ## Configuration, external world and state -/

/-- The macros `_syscall` takes from headers that are not part of the file:
the operation codes, two errno values, three open flags and the build switch
`SUPPORT_ENCLAVE_SIGNALS`. -/
structure Config where
  sysno : Label → Int
  ENOENT : Int
  ENOSYS : Int
  OE_O_CREAT : Nat
  OE_O_WRONLY : Nat
  OE_O_TRUNC : Nat
  SUPPORT_ENCLAVE_SIGNALS : Bool

/-- What C requires of a switch: no two case labels have the same value. -/
def Config.distinct (cfg : Config) : Prop := (Label.all.map cfg.sysno).Nodup

instance (cfg : Config) : Decidable cfg.distinct := by
  unfold Config.distinct
  exact inferInstance

/-- What an external call hands back when it returns: its return value as
assigned to the `long ret` (for `oe_getcwd`, the pointer returned), the value
of `oe_errno` on return, and the world it leaves. -/
structure Reply (σ : Type) where
  ret : Int
  err : Int
  world : σ

/-- The functions `_syscall` calls and does not define. `exec c e w` runs the
call `c` entered with `oe_errno = e` in world `w`; `none` says that control
never comes back from it. `memcpy_stat buf_out w` is the
`memcpy(buf_out, &buf, sizeof(struct oe_stat))` of the `stat` case, run in
world `w`: the world after the copy, or `none` when the destination is not
writable memory and the copy faults. -/
structure Extern (σ : Type) where
  exec : Call → Int → σ → Option (Reply σ)
  memcpy_stat : Int → σ → Option σ

/-- One entry of the log of external calls: the call, and the return value and
`oe_errno` it came back with (`none` when it did not come back). -/
structure Event where
  call : Call
  reply : Option (Int × Int)

/-- The state `_syscall` runs in: `oe_errno`, the world behind the device
layer, and the log of the external calls made so far. -/
structure State (σ : Type) where
  oe_errno : Int
  world : σ
  log : List Event

/-- How a run of `_syscall` ends: it returns `ret` to its caller in a final
state, or control was handed to an external call that never came back, or the
run was ended by a fault in the dispatcher's own copy to an argument address. -/
inductive Outcome (σ : Type) where
  | returned (ret : Int) (s : State σ)
  | noreturn (s : State σ)
  | killed (s : State σ)

/-- What a caller can observe of an outcome besides the world: the result (if
any), the error state and the logged external calls. -/
def Outcome.obs {σ : Type} : Outcome σ → Option Int × Int × List Event
  | .returned ret s => (some ret, s.oe_errno, s.log)
  | .noreturn s => (none, s.oe_errno, s.log)
  | .killed s => (none, s.oe_errno, s.log)

/-- The target of `switch (num)`: the case label whose value is `num`, if any. -/
def classify (cfg : Config) (num : Int) : Option Label :=
  Label.all.find? (fun l => decide (cfg.sysno l = num))

/-- Perform the external call `c` in state `s` and continue with `k` on its
return value; the call is logged. -/
def invoke {σ : Type} (ext : Extern σ) (c : Call) (s : State σ)
    (k : Int → State σ → Outcome σ) : Outcome σ :=
  match ext.exec c s.oe_errno s.world with
  | none => .noreturn { s with log := s.log ++ [⟨c, none⟩] }
  | some r =>
    k r.ret { oe_errno := r.err, world := r.world,
              log := s.log ++ [⟨c, some (r.ret, r.err)⟩] }

/-- The dispatcher `_syscall(num, arg1, ..., arg6)`. Each arm is the case of
the same name; `goto done` followed by `return ret` is `.returned ret s`. -/
def _syscall {σ : Type} (cfg : Config) (ext : Extern σ)
    (num arg1 arg2 arg3 arg4 arg5 arg6 : Int) (s0 : State σ) : Outcome σ :=
  let ret : Int := -1
  let s : State σ := { s0 with oe_errno := 0 }
  match classify cfg num with
  | some OE_SYS_creat =>
    let pathname := castPtr arg1
    let mode := castUInt arg2
    let flags : Int := ((cfg.OE_O_CREAT ||| cfg.OE_O_WRONLY ||| cfg.OE_O_TRUNC : Nat) : Int)
    invoke ext (.oe_open pathname flags mode) s fun ret s =>
      if s.oe_errno = cfg.ENOENT then
        .returned ret { s with oe_errno := cfg.ENOSYS }
      else
        .returned ret s
  | some OE_SYS_open =>
    let pathname := castPtr arg1
    let flags := castInt arg2
    let mode := castUInt arg3
    invoke ext (.oe_open pathname flags mode) s fun ret s =>
      if ret < 0 ∧ s.oe_errno = cfg.ENOENT then
        .returned ret s
      else
        .returned ret s
  | some OE_SYS_lseek =>
    let fd := castInt arg1
    let off := arg2
    let whence := castInt arg3
    invoke ext (.oe_lseek fd off whence) s fun ret s => .returned ret s
  | some OE_SYS_readv =>
    let fd := castInt arg1
    let iov := castPtr arg2
    let iovcnt := castInt arg3
    invoke ext (.oe_readv fd iov iovcnt) s fun ret s => .returned ret s
  | some OE_SYS_writev =>
    let fd := castInt arg1
    let iov := castPtr arg2
    let iovcnt := castInt arg3
    invoke ext (.oe_writev fd iov iovcnt) s fun ret s => .returned ret s
  | some OE_SYS_read =>
    let fd := castInt arg1
    let buf := castPtr arg2
    let count := castULong arg3
    invoke ext (.oe_read fd buf count) s fun ret s => .returned ret s
  | some OE_SYS_write =>
    let fd := castInt arg1
    let buf := castPtr arg2
    let count := castULong arg3
    invoke ext (.oe_write fd buf count) s fun ret s => .returned ret s
  | some OE_SYS_close =>
    let fd := castInt arg1
    invoke ext (.oe_close fd) s fun ret s => .returned ret s
  | some OE_SYS_dup =>
    let fd := castInt arg1
    invoke ext (.oe_dup fd) s fun ret s => .returned ret s
  | some OE_SYS_dup2 =>
    let fd := castInt arg1
    let newfd := castInt arg2
    invoke ext (.oe_dup2 fd newfd) s fun ret s => .returned ret s
  | some OE_SYS_stat =>
    let pathname := castPtr arg1
    let buf_out := castPtr arg2
    invoke ext (.oe_stat pathname) s fun ret s =>
      -- `memcpy(buf_out, &buf, sizeof(struct oe_stat))`, whatever `ret` is
      match ext.memcpy_stat buf_out s.world with
      | some w => .returned ret { s with world := w }
      | none => .killed s
  | some OE_SYS_link =>
    let oldpath := castPtr arg1
    let newpath := castPtr arg2
    invoke ext (.oe_link oldpath newpath) s fun ret s => .returned ret s
  | some OE_SYS_unlink =>
    let pathname := castPtr arg1
    invoke ext (.oe_unlink pathname) s fun ret s => .returned ret s
  | some OE_SYS_rename =>
    let oldpath := castPtr arg1
    let newpath := castPtr arg2
    invoke ext (.oe_rename oldpath newpath) s fun ret s => .returned ret s
  | some OE_SYS_truncate =>
    let path := castPtr arg1
    let length := arg2
    invoke ext (.oe_truncate path length) s fun ret s => .returned ret s
  | some OE_SYS_mkdir =>
    let pathname := castPtr arg1
    let mode := castUInt arg2
    invoke ext (.oe_mkdir pathname mode) s fun ret s => .returned ret s
  | some OE_SYS_rmdir =>
    let pathname := castPtr arg1
    invoke ext (.oe_rmdir pathname) s fun ret s => .returned ret s
  | some OE_SYS_access =>
    let pathname := castPtr arg1
    let mode := castInt arg2
    invoke ext (.oe_access pathname mode) s fun ret s => .returned ret s
  | some OE_SYS_getdents | some OE_SYS_getdents64 =>
    let fd := castUInt arg1
    let ent := castPtr arg2
    let count := castUInt arg3
    invoke ext (.oe_getdents fd ent count) s fun ret s => .returned ret s
  | some OE_SYS_ioctl =>
    let fd := castInt arg1
    let request := castULong arg2
    let p1 := arg3
    let p2 := arg4
    let p3 := arg5
    let p4 := arg6
    invoke ext (.oe_ioctl fd request p1 p2 p3 p4) s fun ret s => .returned ret s
  | some OE_SYS_fcntl =>
    let fd := castInt arg1
    let cmd := castInt arg2
    let arg := castInt arg3
    invoke ext (.oe_fcntl fd cmd arg) s fun ret s => .returned ret s
  | some OE_SYS_mount =>
    let source := castPtr arg1
    let target := castPtr arg2
    let fstype := castPtr arg3
    let flags := castULong arg4
    let data := castPtr arg5
    invoke ext (.oe_mount source target fstype flags data) s fun ret s => .returned ret s
  | some OE_SYS_umount2 =>
    let target := castPtr arg1
    let flags := castInt arg2
    let _unused := flags
    invoke ext (.oe_umount target) s fun ret s => .returned ret s
  | some OE_SYS_getcwd =>
    let buf := castPtr arg1
    let size := castULong arg2
    invoke ext (.oe_getcwd buf size) s fun p s =>
      if p = 0 then
        .returned (-1) s
      else
        .returned (castLong size) s
  | some OE_SYS_chdir =>
    let path := castPtr arg1
    invoke ext (.oe_chdir path) s fun ret s => .returned ret s
  | some OE_SYS_socket =>
    let domain := castInt arg1
    let type := castInt arg2
    let protocol := castInt arg3
    invoke ext (.oe_socket domain type protocol) s fun ret s => .returned ret s
  | some OE_SYS_connect =>
    let sd := castInt arg1
    let addr := castPtr arg2
    let addrlen := castUInt arg3
    invoke ext (.oe_connect sd addr addrlen) s fun ret s => .returned ret s
  | some OE_SYS_setsockopt =>
    let sockfd := castInt arg1
    let level := castInt arg2
    let optname := castInt arg3
    let optval := castPtr arg4
    let optlen := castUInt arg5
    invoke ext (.oe_setsockopt sockfd level optname optval optlen) s fun ret s =>
      .returned ret s
  | some OE_SYS_getsockopt =>
    let sockfd := castInt arg1
    let level := castInt arg2
    let optname := castInt arg3
    let optval := castPtr arg4
    let optlen := castPtr arg5
    invoke ext (.oe_getsockopt sockfd level optname optval optlen) s fun ret s =>
      .returned ret s
  | some OE_SYS_getpeername =>
    let sockfd := castInt arg1
    let addr := castPtr arg2
    let addrlen := castPtr arg3
    invoke ext (.oe_getpeername sockfd addr addrlen) s fun ret s => .returned ret s
  | some OE_SYS_getsockname =>
    let sockfd := castInt arg1
    let addr := castPtr arg2
    let addrlen := castPtr arg3
    invoke ext (.oe_getsockname sockfd addr addrlen) s fun ret s => .returned ret s
  | some OE_SYS_bind =>
    let sockfd := castInt arg1
    let addr := castPtr arg2
    let addrlen := castUInt arg3
    invoke ext (.oe_bind sockfd addr addrlen) s fun ret s => .returned ret s
  | some OE_SYS_listen =>
    let sockfd := castInt arg1
    let backlog := castInt arg2
    invoke ext (.oe_listen sockfd backlog) s fun ret s => .returned ret s
  | some OE_SYS_accept =>
    let sockfd := castInt arg1
    let addr := castPtr arg2
    let addrlen := castPtr arg3
    invoke ext (.oe_accept sockfd addr addrlen) s fun ret s => .returned ret s
  | some OE_SYS_sendto =>
    let sockfd := castInt arg1
    let buf := castPtr arg2
    let len := castULong arg3
    let flags := castInt arg4
    let dest_add := castPtr arg5
    let addrlen := castUInt arg6
    invoke ext (.oe_sendto sockfd buf len flags dest_add addrlen) s fun ret s =>
      .returned ret s
  | some OE_SYS_recvfrom =>
    let sockfd := castInt arg1
    let buf := castPtr arg2
    let len := castULong arg3
    let flags := castInt arg4
    let dest_add := castPtr arg5
    let addrlen := castPtr arg6
    invoke ext (.oe_recvfrom sockfd buf len flags dest_add addrlen) s fun ret s =>
      .returned ret s
  | some OE_SYS_sendmsg =>
    let sockfd := castInt arg1
    let buf := castPtr arg2
    let flags := castInt arg3
    invoke ext (.oe_sendmsg sockfd buf flags) s fun ret s => .returned ret s
  | some OE_SYS_recvmsg =>
    let sockfd := castInt arg1
    let buf := castPtr arg2
    let flags := castInt arg3
    invoke ext (.oe_recvmsg sockfd buf flags) s fun ret s => .returned ret s
  | some OE_SYS_socketpair =>
    let domain := castInt arg1
    let type := castInt arg2
    let protocol := castInt arg3
    let sv := castPtr arg4
    invoke ext (.oe_socketpair domain type protocol sv) s fun ret s => .returned ret s
  | some OE_SYS_shutdown =>
    let sockfd := castInt arg1
    let how := castInt arg2
    invoke ext (.oe_shutdown sockfd how) s fun ret s => .returned ret s
  | some OE_SYS_uname =>
    let buf := castPtr arg1
    invoke ext (.oe_uname buf) s fun ret s => .returned ret s
  | some OE_SYS_select =>
    let nfds := castInt arg1
    let readfds := castPtr arg2
    let writefds := castPtr arg3
    let exceptfds := castPtr arg4
    let tmo := castPtr arg5
    invoke ext (.oe_select nfds readfds writefds exceptfds tmo) s fun ret s =>
      .returned ret s
  | some OE_SYS_poll =>
    let fds := castPtr arg1
    let nfds := castULong arg2
    let millis := castInt arg3
    invoke ext (.oe_poll fds nfds millis) s fun ret s => .returned ret s
  | some OE_SYS_epoll_create =>
    let size := castInt arg1
    invoke ext (.oe_epoll_create size) s fun ret s => .returned ret s
  | some OE_SYS_epoll_create1 =>
    let flags := castInt arg1
    invoke ext (.oe_epoll_create1 flags) s fun ret s => .returned ret s
  | some OE_SYS_epoll_wait =>
    let epfd := castInt arg1
    let events := castPtr arg2
    let maxevents := castInt arg3
    let timeout := castInt arg4
    invoke ext (.oe_epoll_wait epfd events maxevents timeout) s fun ret s =>
      .returned ret s
  | some OE_SYS_epoll_pwait =>
    let epfd := castInt arg1
    let events := castPtr arg2
    let maxevents := castInt arg3
    let timeout := castInt arg4
    if cfg.SUPPORT_ENCLAVE_SIGNALS then
      let sigmask := castPtr arg5
      invoke ext (.oe_epoll_pwait epfd events maxevents timeout sigmask) s fun ret s =>
        .returned ret s
    else
      invoke ext (.oe_epoll_wait epfd events maxevents timeout) s fun ret s =>
        .returned ret s
  | some OE_SYS_epoll_wait_old =>
    let epfd := castInt arg1
    let events := castPtr arg2
    let maxevents := castInt arg3
    let timeout := castInt arg4
    invoke ext (.oe_epoll_wait epfd events maxevents timeout) s fun ret s =>
      .returned ret s
  | some OE_SYS_epoll_ctl =>
    let epfd := castInt arg1
    let op := castInt arg2
    let fd := castInt arg3
    let event := castPtr arg4
    invoke ext (.oe_epoll_ctl epfd op fd event) s fun ret s => .returned ret s
  | some OE_SYS_epoll_ctl_old =>
    let epfd := castInt arg1
    let op := castInt arg2
    let fd := castInt arg3
    let event := castPtr arg4
    invoke ext (.oe_epoll_ctl epfd op fd event) s fun ret s => .returned ret s
  | some OE_SYS_eventfd | some OE_SYS_eventfd2 =>
    let initval := castUInt arg1
    let flags := castInt arg2
    invoke ext (.oe_eventfd initval flags) s fun ret s => .returned ret s
  | some OE_SYS_exit_group =>
    let ret : Int := 0
    .returned ret s
  | some OE_SYS_exit =>
    let status := castInt arg1
    -- no `goto done` here: after `oe_exit(status)` the text runs on into
    -- `case OE_SYS_getpid`
    invoke ext (.oe_exit status) s fun _ s =>
      invoke ext .oe_getpid s fun ret s => .returned ret s
  | some OE_SYS_getpid =>
    invoke ext .oe_getpid s fun ret s => .returned ret s
  | some OE_SYS_getuid =>
    invoke ext .oe_getuid s fun ret s => .returned ret s
  | some OE_SYS_geteuid =>
    invoke ext .oe_geteuid s fun ret s => .returned ret s
  | some OE_SYS_getppid =>
    invoke ext .oe_getppid s fun ret s => .returned ret s
  | some OE_SYS_getpgrp =>
    invoke ext .oe_getpgrp s fun ret s => .returned ret s
  | some OE_SYS_rt_sigaction =>
    let signum := castInt arg1
    let act := castPtr arg2
    let oact := castPtr arg3
    invoke ext (.oe_signal signum act oact) s fun ret s => .returned ret s
  | some OE_SYS_kill =>
    let pid := castInt arg1
    let signum := castInt arg2
    invoke ext (.oe_kill pid signum) s fun ret s => .returned ret s
  | none =>
    .returned ret { s with oe_errno := cfg.ENOSYS }

/-- The entry point `oe_syscall(number, ...)`: the six variadic words are read
and passed on to `_syscall` unchanged. -/
def oe_syscall {σ : Type} (cfg : Config) (ext : Extern σ)
    (number arg1 arg2 arg3 arg4 arg5 arg6 : Int) (s : State σ) : Outcome σ :=
  _syscall cfg ext number arg1 arg2 arg3 arg4 arg5 arg6 s

/-- Modelled from the spec: the contract of the process-termination primitive
`oe_exit`, whose code is not part of `syscall.c`. Control handed to it never
returns to the dispatcher, whatever the status, `oe_errno` and the world. -/
def Extern.exitNeverReturns {σ : Type} (ext : Extern σ) : Prop :=
  ∀ (status e : Int) (w : σ), ext.exec (.oe_exit status) e w = none

/-- The argument words (1 to 6) that the case of label `l` passes on, after
its casts, to the device operation it calls. -/
def forwarded (cfg : Config) : Label → List Nat
  | OE_SYS_creat => [1, 2]
  | OE_SYS_open => [1, 2, 3]
  | OE_SYS_lseek => [1, 2, 3]
  | OE_SYS_readv => [1, 2, 3]
  | OE_SYS_writev => [1, 2, 3]
  | OE_SYS_read => [1, 2, 3]
  | OE_SYS_write => [1, 2, 3]
  | OE_SYS_close => [1]
  | OE_SYS_dup => [1]
  | OE_SYS_dup2 => [1, 2]
  | OE_SYS_stat => [1]
  | OE_SYS_link => [1, 2]
  | OE_SYS_unlink => [1]
  | OE_SYS_rename => [1, 2]
  | OE_SYS_truncate => [1, 2]
  | OE_SYS_mkdir => [1, 2]
  | OE_SYS_rmdir => [1]
  | OE_SYS_access => [1, 2]
  | OE_SYS_getdents => [1, 2, 3]
  | OE_SYS_getdents64 => [1, 2, 3]
  | OE_SYS_ioctl => [1, 2, 3, 4, 5, 6]
  | OE_SYS_fcntl => [1, 2, 3]
  | OE_SYS_mount => [1, 2, 3, 4, 5]
  | OE_SYS_umount2 => [1]
  | OE_SYS_getcwd => [1, 2]
  | OE_SYS_chdir => [1]
  | OE_SYS_socket => [1, 2, 3]
  | OE_SYS_connect => [1, 2, 3]
  | OE_SYS_setsockopt => [1, 2, 3, 4, 5]
  | OE_SYS_getsockopt => [1, 2, 3, 4, 5]
  | OE_SYS_getpeername => [1, 2, 3]
  | OE_SYS_getsockname => [1, 2, 3]
  | OE_SYS_bind => [1, 2, 3]
  | OE_SYS_listen => [1, 2]
  | OE_SYS_accept => [1, 2, 3]
  | OE_SYS_sendto => [1, 2, 3, 4, 5, 6]
  | OE_SYS_recvfrom => [1, 2, 3, 4, 5, 6]
  | OE_SYS_sendmsg => [1, 2, 3]
  | OE_SYS_recvmsg => [1, 2, 3]
  | OE_SYS_socketpair => [1, 2, 3, 4]
  | OE_SYS_shutdown => [1, 2]
  | OE_SYS_uname => [1]
  | OE_SYS_select => [1, 2, 3, 4, 5]
  | OE_SYS_poll => [1, 2, 3]
  | OE_SYS_epoll_create => [1]
  | OE_SYS_epoll_create1 => [1]
  | OE_SYS_epoll_wait => [1, 2, 3, 4]
  | OE_SYS_epoll_pwait =>
    if cfg.SUPPORT_ENCLAVE_SIGNALS then [1, 2, 3, 4, 5] else [1, 2, 3, 4]
  | OE_SYS_epoll_wait_old => [1, 2, 3, 4]
  | OE_SYS_epoll_ctl => [1, 2, 3, 4]
  | OE_SYS_epoll_ctl_old => [1, 2, 3, 4]
  | OE_SYS_eventfd => [1, 2]
  | OE_SYS_eventfd2 => [1, 2]
  | OE_SYS_exit_group => []
  | OE_SYS_exit => [1]
  | OE_SYS_getpid => []
  | OE_SYS_getuid => []
  | OE_SYS_geteuid => []
  | OE_SYS_getppid => []
  | OE_SYS_getpgrp => []
  | OE_SYS_rt_sigaction => [1, 2, 3]
  | OE_SYS_kill => [1, 2]

/-- The device-layer operation each operation code stands for, applied to the
argument words: a second description of the dispatch, to compare `_syscall`
with. Each code stands for the operation of its name, with these exceptions
taken from the special cases of the design: `creat` is `oe_open` with the
create, write-only and truncate flags; `getdents64`, `eventfd2`,
`epoll_wait_old` and `epoll_ctl_old` are aliases; `umount2` is `oe_umount`
without the flags; `rt_sigaction` is `oe_signal`; `epoll_pwait` is
`oe_epoll_pwait` when enclave signals are supported and `oe_epoll_wait`
otherwise; `exit_group` stands for no operation. The words are converted to
the parameter types of the POSIX prototypes of the operations (LP64): `int`
descriptors, flags, commands and counts of entries, `size_t` lengths,
`mode_t` and `socklen_t` as 32-bit unsigned, `off_t` as `long`, `unsigned int`
descriptor and count for `getdents`, `unsigned long` for the `ioctl` request,
the `mount` flags and `nfds_t`; `oe_stat` writes to a buffer of the
dispatcher, not to an argument address. -/
def correspondingCall (cfg : Config) (l : Label) (w1 w2 w3 w4 w5 w6 : Int) : Option Call :=
  match l with
  | OE_SYS_creat =>
    some (.oe_open (castPtr w1)
      ((cfg.OE_O_CREAT ||| cfg.OE_O_WRONLY ||| cfg.OE_O_TRUNC : Nat) : Int) (castUInt w2))
  | OE_SYS_open => some (.oe_open (castPtr w1) (castInt w2) (castUInt w3))
  | OE_SYS_lseek => some (.oe_lseek (castInt w1) w2 (castInt w3))
  | OE_SYS_readv => some (.oe_readv (castInt w1) (castPtr w2) (castInt w3))
  | OE_SYS_writev => some (.oe_writev (castInt w1) (castPtr w2) (castInt w3))
  | OE_SYS_read => some (.oe_read (castInt w1) (castPtr w2) (castULong w3))
  | OE_SYS_write => some (.oe_write (castInt w1) (castPtr w2) (castULong w3))
  | OE_SYS_close => some (.oe_close (castInt w1))
  | OE_SYS_dup => some (.oe_dup (castInt w1))
  | OE_SYS_dup2 => some (.oe_dup2 (castInt w1) (castInt w2))
  | OE_SYS_stat => some (.oe_stat (castPtr w1))
  | OE_SYS_link => some (.oe_link (castPtr w1) (castPtr w2))
  | OE_SYS_unlink => some (.oe_unlink (castPtr w1))
  | OE_SYS_rename => some (.oe_rename (castPtr w1) (castPtr w2))
  | OE_SYS_truncate => some (.oe_truncate (castPtr w1) w2)
  | OE_SYS_mkdir => some (.oe_mkdir (castPtr w1) (castUInt w2))
  | OE_SYS_rmdir => some (.oe_rmdir (castPtr w1))
  | OE_SYS_access => some (.oe_access (castPtr w1) (castInt w2))
  | OE_SYS_getdents => some (.oe_getdents (castUInt w1) (castPtr w2) (castUInt w3))
  | OE_SYS_getdents64 => some (.oe_getdents (castUInt w1) (castPtr w2) (castUInt w3))
  | OE_SYS_ioctl => some (.oe_ioctl (castInt w1) (castULong w2) w3 w4 w5 w6)
  | OE_SYS_fcntl => some (.oe_fcntl (castInt w1) (castInt w2) (castInt w3))
  | OE_SYS_mount =>
    some (.oe_mount (castPtr w1) (castPtr w2) (castPtr w3) (castULong w4) (castPtr w5))
  | OE_SYS_umount2 => some (.oe_umount (castPtr w1))
  | OE_SYS_getcwd => some (.oe_getcwd (castPtr w1) (castULong w2))
  | OE_SYS_chdir => some (.oe_chdir (castPtr w1))
  | OE_SYS_socket => some (.oe_socket (castInt w1) (castInt w2) (castInt w3))
  | OE_SYS_connect => some (.oe_connect (castInt w1) (castPtr w2) (castUInt w3))
  | OE_SYS_setsockopt =>
    some (.oe_setsockopt (castInt w1) (castInt w2) (castInt w3) (castPtr w4) (castUInt w5))
  | OE_SYS_getsockopt =>
    some (.oe_getsockopt (castInt w1) (castInt w2) (castInt w3) (castPtr w4) (castPtr w5))
  | OE_SYS_getpeername => some (.oe_getpeername (castInt w1) (castPtr w2) (castPtr w3))
  | OE_SYS_getsockname => some (.oe_getsockname (castInt w1) (castPtr w2) (castPtr w3))
  | OE_SYS_bind => some (.oe_bind (castInt w1) (castPtr w2) (castUInt w3))
  | OE_SYS_listen => some (.oe_listen (castInt w1) (castInt w2))
  | OE_SYS_accept => some (.oe_accept (castInt w1) (castPtr w2) (castPtr w3))
  | OE_SYS_sendto =>
    some (.oe_sendto (castInt w1) (castPtr w2) (castULong w3) (castInt w4) (castPtr w5)
      (castUInt w6))
  | OE_SYS_recvfrom =>
    some (.oe_recvfrom (castInt w1) (castPtr w2) (castULong w3) (castInt w4) (castPtr w5)
      (castPtr w6))
  | OE_SYS_sendmsg => some (.oe_sendmsg (castInt w1) (castPtr w2) (castInt w3))
  | OE_SYS_recvmsg => some (.oe_recvmsg (castInt w1) (castPtr w2) (castInt w3))
  | OE_SYS_socketpair =>
    some (.oe_socketpair (castInt w1) (castInt w2) (castInt w3) (castPtr w4))
  | OE_SYS_shutdown => some (.oe_shutdown (castInt w1) (castInt w2))
  | OE_SYS_uname => some (.oe_uname (castPtr w1))
  | OE_SYS_select =>
    some (.oe_select (castInt w1) (castPtr w2) (castPtr w3) (castPtr w4) (castPtr w5))
  | OE_SYS_poll => some (.oe_poll (castPtr w1) (castULong w2) (castInt w3))
  | OE_SYS_epoll_create => some (.oe_epoll_create (castInt w1))
  | OE_SYS_epoll_create1 => some (.oe_epoll_create1 (castInt w1))
  | OE_SYS_epoll_wait =>
    some (.oe_epoll_wait (castInt w1) (castPtr w2) (castInt w3) (castInt w4))
  | OE_SYS_epoll_pwait =>
    if cfg.SUPPORT_ENCLAVE_SIGNALS then
      some (.oe_epoll_pwait (castInt w1) (castPtr w2) (castInt w3) (castInt w4) (castPtr w5))
    else
      some (.oe_epoll_wait (castInt w1) (castPtr w2) (castInt w3) (castInt w4))
  | OE_SYS_epoll_wait_old =>
    some (.oe_epoll_wait (castInt w1) (castPtr w2) (castInt w3) (castInt w4))
  | OE_SYS_epoll_ctl =>
    some (.oe_epoll_ctl (castInt w1) (castInt w2) (castInt w3) (castPtr w4))
  | OE_SYS_epoll_ctl_old =>
    some (.oe_epoll_ctl (castInt w1) (castInt w2) (castInt w3) (castPtr w4))
  | OE_SYS_eventfd => some (.oe_eventfd (castUInt w1) (castInt w2))
  | OE_SYS_eventfd2 => some (.oe_eventfd (castUInt w1) (castInt w2))
  | OE_SYS_exit_group => none
  | OE_SYS_exit => some (.oe_exit (castInt w1))
  | OE_SYS_getpid => some .oe_getpid
  | OE_SYS_getuid => some .oe_getuid
  | OE_SYS_geteuid => some .oe_geteuid
  | OE_SYS_getppid => some .oe_getppid
  | OE_SYS_getpgrp => some .oe_getpgrp
  | OE_SYS_rt_sigaction => some (.oe_signal (castInt w1) (castPtr w2) (castPtr w3))
  | OE_SYS_kill => some (.oe_kill (castInt w1) (castInt w2))

/-! ## A concrete instance

The x86-64 Linux numbering of the operation codes with the Linux values of the
errno and open-flag macros, and a small device layer over a world that counts
the calls that succeeded. They serve as inputs on which the theorems below
are evaluated. -/

/-- The x86-64 Linux system-call numbers of the case labels. -/
def linuxSysno : Label → Int
  | OE_SYS_read => 0
  | OE_SYS_write => 1
  | OE_SYS_open => 2
  | OE_SYS_close => 3
  | OE_SYS_stat => 4
  | OE_SYS_poll => 7
  | OE_SYS_lseek => 8
  | OE_SYS_rt_sigaction => 13
  | OE_SYS_ioctl => 16
  | OE_SYS_readv => 19
  | OE_SYS_writev => 20
  | OE_SYS_access => 21
  | OE_SYS_select => 23
  | OE_SYS_dup => 32
  | OE_SYS_dup2 => 33
  | OE_SYS_getpid => 39
  | OE_SYS_socket => 41
  | OE_SYS_connect => 42
  | OE_SYS_accept => 43
  | OE_SYS_sendto => 44
  | OE_SYS_recvfrom => 45
  | OE_SYS_sendmsg => 46
  | OE_SYS_recvmsg => 47
  | OE_SYS_shutdown => 48
  | OE_SYS_bind => 49
  | OE_SYS_listen => 50
  | OE_SYS_getsockname => 51
  | OE_SYS_getpeername => 52
  | OE_SYS_socketpair => 53
  | OE_SYS_setsockopt => 54
  | OE_SYS_getsockopt => 55
  | OE_SYS_exit => 60
  | OE_SYS_kill => 62
  | OE_SYS_uname => 63
  | OE_SYS_fcntl => 72
  | OE_SYS_truncate => 76
  | OE_SYS_getdents => 78
  | OE_SYS_getcwd => 79
  | OE_SYS_chdir => 80
  | OE_SYS_rename => 82
  | OE_SYS_mkdir => 83
  | OE_SYS_rmdir => 84
  | OE_SYS_creat => 85
  | OE_SYS_link => 86
  | OE_SYS_unlink => 87
  | OE_SYS_getuid => 102
  | OE_SYS_geteuid => 107
  | OE_SYS_getppid => 110
  | OE_SYS_getpgrp => 111
  | OE_SYS_mount => 165
  | OE_SYS_umount2 => 166
  | OE_SYS_epoll_create => 213
  | OE_SYS_epoll_ctl_old => 214
  | OE_SYS_epoll_wait_old => 215
  | OE_SYS_getdents64 => 217
  | OE_SYS_exit_group => 231
  | OE_SYS_epoll_wait => 232
  | OE_SYS_epoll_ctl => 233
  | OE_SYS_epoll_pwait => 281
  | OE_SYS_eventfd => 284
  | OE_SYS_eventfd2 => 290
  | OE_SYS_epoll_create1 => 291

/-- The Linux x86-64 values of the macros, built without enclave signals. -/
def linuxConfig : Config where
  sysno := linuxSysno
  ENOENT := 2
  ENOSYS := 38
  OE_O_CREAT := 64
  OE_O_WRONLY := 1
  OE_O_TRUNC := 512
  SUPPORT_ENCLAVE_SIGNALS := false

/-- A device layer over a world that counts the calls that succeeded:
`oe_exit` never comes back; `oe_open` fails with `ENOENT` (2) on the path at
address 0 and with `EACCES` (13) on the path at address 1, and otherwise
yields descriptor 3; `oe_unlink` fails with `ENOENT`; `oe_getcwd` fails with
`EFAULT` (14) on the null buffer and otherwise returns the buffer; every
other call returns 0 and leaves `oe_errno` alone. The first page (addresses
below 4096) is not mapped, so the copy of the stat buffer faults there. -/
def sampleExtern : Extern Nat where
  exec := fun c e w =>
    match c with
    | .oe_exit _ => none
    | .oe_open pathname _ _ =>
      if pathname = 0 then some ⟨-1, 2, w⟩
      else if pathname = 1 then some ⟨-1, 13, w⟩
      else some ⟨3, e, w + 1⟩
    | .oe_unlink _ => some ⟨-1, 2, w⟩
    | .oe_getcwd buf _ =>
      if buf = 0 then some ⟨0, 14, w⟩ else some ⟨buf, e, w + 1⟩
    | _ => some ⟨0, e, w + 1⟩
  memcpy_stat := fun buf_out w => if buf_out < 4096 then none else some (w + 1)

/-- A state to start from: a stale error 5, world 0, empty log. -/
def sampleState : State Nat := { oe_errno := 5, world := 0, log := [] }

/-! ## Lemmas on the conversions and on the switch -/

/-- Adding a multiple of `2^32` does not change the `int` a word is cast to. -/
theorem castInt_add_mul (w k : Int) : castInt (w + k * 2 ^ 32) = castInt w := by
  unfold castInt
  rw [Int.add_right_comm, Int.add_mul_emod_self]

/-- Casting a `long` to `size_t` and back gives the `long` again. -/
theorem castLong_castULong (x : Int) (h : isLong x) : castLong (castULong x) = x := by
  unfold isLong at h
  unfold castLong castULong
  omega

/-- In a list whose images under `f` are pairwise distinct, searching for the
image of a member finds that member. -/
theorem find_of_nodup {α : Type} (f : α → Int) (l : α) :
    ∀ xs : List α, (xs.map f).Nodup → l ∈ xs →
      xs.find? (fun x => decide (f x = f l)) = some l := by
  intro xs
  induction xs with
  | nil => intro _ hm; simp at hm
  | cons x xs ih =>
    intro hn hm
    rw [List.map_cons, List.nodup_cons] at hn
    by_cases hx : x = l
    · subst hx
      simp
    · have hmem : l ∈ xs := by
        rcases List.mem_cons.mp hm with h | h
        · exact absurd h.symm hx
        · exact h
      have hne : f x ≠ f l := by
        intro heq
        apply hn.1
        rw [heq]
        exact List.mem_map_of_mem f hmem
      rw [List.find?_cons]
      simp only [hne, decide_False]
      exact ih hn.2 hmem

/-- The list `Label.all` holds every case label. -/
theorem mem_all (l : Label) : l ∈ Label.all := by
  cases l <;> simp [Label.all]

/-- With distinct case labels, the switch on the value of label `l` selects `l`. -/
theorem classify_sysno (cfg : Config) (h : cfg.distinct) (l : Label) :
    classify cfg (cfg.sysno l) = some l :=
  find_of_nodup cfg.sysno l Label.all h (mem_all l)

/-- A value that is the value of no case label selects the default arm. -/
theorem classify_none (cfg : Config) (num : Int) (h : ∀ l, cfg.sysno l ≠ num) :
    classify cfg num = none := by
  unfold classify
  rw [List.find?_eq_none]
  intro l _
  simpa using h l

/-- The x86-64 Linux numbers of the case labels are pairwise distinct. -/
theorem linuxConfig_distinct : linuxConfig.distinct := by
  decide

/-- What is observed of a single call that returns and whose return value is
returned as is. -/
theorem obs_invoke_some {σ : Type} (ext : Extern σ) (c : Call) (w : σ)
    (lg : List Event) (rep : Reply σ) (h : ext.exec c 0 w = some rep) :
    (invoke ext c { oe_errno := 0, world := w, log := lg }
        (fun ret s => Outcome.returned ret s)).obs
      = (some rep.ret, rep.err, lg ++ [⟨c, some (rep.ret, rep.err)⟩]) := by
  simp only [invoke, h]
  rfl

/-- What is observed of a single call that never returns. -/
theorem obs_invoke_none {σ : Type} (ext : Extern σ) (c : Call) (w : σ)
    (lg : List Event) (h : ext.exec c 0 w = none) :
    (invoke ext c { oe_errno := 0, world := w, log := lg }
        (fun ret s => Outcome.returned ret s)).obs
      = (none, 0, lg ++ [⟨c, none⟩]) := by
  simp only [invoke, h]
  rfl

/-- An outcome observed as a single passed-through call `c`, where `c` is the
call the table gives for the code, makes exactly that call and returns what
it returns. -/
theorem exists_call_of_obs {σ : Type} (ext : Extern σ) (c : Call) (w : σ)
    (lg : List Event) (out : Outcome σ) (tc : Option Call) (htc : tc = some c)
    (h : out.obs = (invoke ext c { oe_errno := 0, world := w, log := lg }
        (fun ret s => Outcome.returned ret s)).obs) :
    ∃ c : Call, tc = some c
      ∧ (∀ rep, ext.exec c 0 w = some rep →
        out.obs = (some rep.ret, rep.err, lg ++ [⟨c, some (rep.ret, rep.err)⟩]))
      ∧ (ext.exec c 0 w = none → out.obs = (none, 0, lg ++ [⟨c, none⟩])) :=
  ⟨c, htc, fun rep hr => h.trans (obs_invoke_some ext c w lg rep hr),
      fun hn => h.trans (obs_invoke_none ext c w lg hn)⟩

/-- The shape of every returning dispatch of a recognized code: either it is
`OE_SYS_exit_group` and nothing was called, or the log ends with a call that
returned, and `oe_errno` is what that call left, rewritten to `ENOSYS` only in
the `creat` arm on `ENOENT`. Only `OE_SYS_exit` can log more than one call. -/
theorem errno_after_return {σ : Type} (cfg : Config) (ext : Extern σ)
    (hd : cfg.distinct) (l : Label) (arg1 arg2 arg3 arg4 arg5 arg6 : Int)
    (s s' : State σ) (ret : Int)
    (h : _syscall cfg ext (cfg.sysno l) arg1 arg2 arg3 arg4 arg5 arg6 s
      = .returned ret s') :
    (l = OE_SYS_exit_group ∧ s'.log = s.log ∧ s'.oe_errno = 0)
    ∨ ∃ (mid : List Event) (c : Call) (e0 : Int) (w0 : σ) (rep : Reply σ),
        ext.exec c e0 w0 = some rep
        ∧ s'.log = s.log ++ mid ++ [⟨c, some (rep.ret, rep.err)⟩]
        ∧ s'.oe_errno
            = (if l = OE_SYS_creat ∧ rep.err = cfg.ENOENT then cfg.ENOSYS else rep.err)
        ∧ (l ≠ OE_SYS_exit → mid = [] ∧ e0 = 0 ∧ w0 = s.world) := by
  unfold _syscall at h
  rw [classify_sysno cfg hd] at h
  cases l
  case OE_SYS_exit_group =>
    cases h
    exact Or.inl ⟨rfl, rfl, rfl⟩
  case OE_SYS_exit =>
    simp only [invoke] at h
    split at h
    · cases h
    · rename_i r1 h1
      split at h
      · cases h
      · rename_i r2 h2
        cases h
        exact Or.inr ⟨[⟨.oe_exit (castInt arg1), some (r1.ret, r1.err)⟩], _, _, _, _, h2,
          by simp, by simp, fun hl => absurd rfl hl⟩
  case OE_SYS_creat =>
    simp only [invoke] at h
    split at h
    · cases h
    · rename_i r1 h1
      split at h
      · rename_i he
        cases h
        exact Or.inr ⟨[], _, _, _, _, h1, by simp, by simp [he], fun _ => ⟨rfl, rfl, rfl⟩⟩
      · rename_i he
        cases h
        exact Or.inr ⟨[], _, _, _, _, h1, by simp, by simp [he], fun _ => ⟨rfl, rfl, rfl⟩⟩
  case OE_SYS_stat =>
    simp only [invoke] at h
    split at h
    · cases h
    · rename_i r1 h1
      split at h
      · cases h
        exact Or.inr ⟨[], _, _, _, _, h1, by simp, by simp, fun _ => ⟨rfl, rfl, rfl⟩⟩
      · cases h
  case OE_SYS_getcwd =>
    simp only [invoke] at h
    split at h
    · cases h
    · rename_i r1 h1
      split at h <;>
      · cases h
        exact Or.inr ⟨[], _, _, _, _, h1, by simp, by simp, fun _ => ⟨rfl, rfl, rfl⟩⟩
  case OE_SYS_epoll_pwait =>
    simp only [invoke] at h
    split at h <;>
    · split at h
      · cases h
      · rename_i r1 h1
        cases h
        exact Or.inr ⟨[], _, _, _, _, h1, by simp, by simp, fun _ => ⟨rfl, rfl, rfl⟩⟩
  all_goals
    simp only [invoke, ite_self] at h
    split at h
    · cases h
    · rename_i r1 h1
      cases h
      exact Or.inr ⟨[], _, _, _, _, h1, by simp, by simp, fun _ => ⟨rfl, rfl, rfl⟩⟩


/-- The `exit` arm has no `goto done`: if `oe_exit` did return, control would
run on into the `getpid` arm and `_syscall` would return the pid. -/
theorem exit_falls_through {σ : Type} (cfg : Config) (ext : Extern σ)
    (arg1 arg2 arg3 arg4 arg5 arg6 : Int) (s : State σ) (r1 r2 : Reply σ)
    (hd : cfg.distinct)
    (h1 : ext.exec (.oe_exit (castInt arg1)) 0 s.world = some r1)
    (h2 : ext.exec .oe_getpid r1.err r1.world = some r2) :
    _syscall cfg ext (cfg.sysno OE_SYS_exit) arg1 arg2 arg3 arg4 arg5 arg6 s
      = .returned r2.ret
          { oe_errno := r2.err, world := r2.world,
            log := s.log ++ [⟨.oe_exit (castInt arg1), some (r1.ret, r1.err)⟩]
                         ++ [⟨.oe_getpid, some (r2.ret, r2.err)⟩] } := by
  unfold _syscall
  rw [classify_sysno cfg hd]
  simp only [invoke, h1, h2]

/-! ## Theorems on the dispatcher -/

/-- C1: when the operation code equals no case label, `_syscall` returns -1
with `oe_errno = ENOSYS`, whatever the six argument words and the prior error
state; the log of external calls and the world are left as they were, so no
device operation is invoked. -/
theorem unknown_code_enosys {σ : Type} (cfg : Config) (ext : Extern σ)
    (num arg1 arg2 arg3 arg4 arg5 arg6 : Int) (s : State σ)
    (h : ∀ l : Label, cfg.sysno l ≠ num) :
    _syscall cfg ext num arg1 arg2 arg3 arg4 arg5 arg6 s
      = .returned (-1) { oe_errno := cfg.ENOSYS, world := s.world, log := s.log } := by
  unfold _syscall
  rw [classify_none cfg num h]

/-- Witness for C1: code 9999 under the Linux numbering, from a state with a
stale error. -/
theorem unknown_code_enosys_witness :
    _syscall linuxConfig sampleExtern 9999 1 2 3 4 5 6 sampleState
      = .returned (-1) { oe_errno := 38, world := 0, log := [] } :=
  unknown_code_enosys linuxConfig sampleExtern 9999 1 2 3 4 5 6 sampleState
    (by intro l; cases l <;> decide)

/-- C2: dispatching `OE_SYS_creat` calls `oe_open(pathname, OE_O_CREAT |
OE_O_WRONLY | OE_O_TRUNC, mode)`; when that call fails (returns -1) with error
`e`, `_syscall` returns -1 and leaves `oe_errno = ENOSYS` if `e = ENOENT`, and
`oe_errno = e` unchanged for every other `e`. -/
theorem creat_failure_errno {σ : Type} (cfg : Config) (ext : Extern σ)
    (arg1 arg2 arg3 arg4 arg5 arg6 : Int) (s : State σ) (e : Int) (w : σ)
    (hd : cfg.distinct)
    (hfail : ext.exec
        (.oe_open (castPtr arg1)
          ((cfg.OE_O_CREAT ||| cfg.OE_O_WRONLY ||| cfg.OE_O_TRUNC : Nat) : Int)
          (castUInt arg2)) 0 s.world = some ⟨-1, e, w⟩) :
    _syscall cfg ext (cfg.sysno OE_SYS_creat) arg1 arg2 arg3 arg4 arg5 arg6 s
      = .returned (-1)
          { oe_errno := if e = cfg.ENOENT then cfg.ENOSYS else e,
            world := w,
            log := s.log ++ [⟨.oe_open (castPtr arg1)
              ((cfg.OE_O_CREAT ||| cfg.OE_O_WRONLY ||| cfg.OE_O_TRUNC : Nat) : Int)
              (castUInt arg2), some (-1, e)⟩] } := by
  unfold _syscall
  rw [classify_sysno cfg hd]
  simp only [invoke, hfail]
  split <;> rfl

/-- Witness for C2: creating the path at address 0 (missing component,
`ENOENT` = 2) reports `ENOSYS` = 38; creating the path at address 1
(`EACCES` = 13) reports 13. -/
theorem creat_failure_errno_witness :
    _syscall linuxConfig sampleExtern 85 0 420 0 0 0 0 sampleState
        = .returned (-1)
            { oe_errno := 38, world := 0,
              log := [⟨.oe_open 0 577 420, some (-1, 2)⟩] }
    ∧ _syscall linuxConfig sampleExtern 85 1 420 0 0 0 0 sampleState
        = .returned (-1)
            { oe_errno := 13, world := 0,
              log := [⟨.oe_open 1 577 420, some (-1, 13)⟩] } :=
  ⟨creat_failure_errno linuxConfig sampleExtern 0 420 0 0 0 0 sampleState 2 0
      (by decide) rfl,
   creat_failure_errno linuxConfig sampleExtern 1 420 0 0 0 0 sampleState 13 0
      (by decide) rfl⟩

/-- C3 (amended): for every case label other than `OE_SYS_exit_group` and
`OE_SYS_getcwd`, `_syscall` makes exactly one external call, the call `c` that
`correspondingCall` gives for the code and the argument words, entered with
`oe_errno = 0` in the caller's world. When `c` returns, `_syscall` returns its
return value and leaves its `oe_errno`; when `c` never returns (as `oe_exit`,
by its contract), neither does `_syscall`. Set aside are `OE_SYS_creat` when
`oe_open` comes back with `oe_errno = ENOENT`, and `OE_SYS_stat` when the copy
of the stat buffer to the address in slot 2 faults. -/
theorem recognized_code_single_call {σ : Type} (cfg : Config) (ext : Extern σ)
    (l : Label) (arg1 arg2 arg3 arg4 arg5 arg6 : Int) (s : State σ)
    (hd : cfg.distinct)
    (hgroup : l ≠ OE_SYS_exit_group) (hcwd : l ≠ OE_SYS_getcwd)
    (hexit : l = OE_SYS_exit → ext.exitNeverReturns)
    (hcreat : l = OE_SYS_creat → ∀ rep,
      ext.exec (.oe_open (castPtr arg1)
          ((cfg.OE_O_CREAT ||| cfg.OE_O_WRONLY ||| cfg.OE_O_TRUNC : Nat) : Int)
          (castUInt arg2)) 0 s.world = some rep → rep.err ≠ cfg.ENOENT)
    (hstat : l = OE_SYS_stat → ∀ rep,
      ext.exec (.oe_stat (castPtr arg1)) 0 s.world = some rep →
        ext.memcpy_stat (castPtr arg2) rep.world ≠ none) :
    ∃ c : Call, correspondingCall cfg l arg1 arg2 arg3 arg4 arg5 arg6 = some c
      ∧ (∀ rep, ext.exec c 0 s.world = some rep →
        (_syscall cfg ext (cfg.sysno l) arg1 arg2 arg3 arg4 arg5 arg6 s).obs
          = (some rep.ret, rep.err, s.log ++ [⟨c, some (rep.ret, rep.err)⟩]))
      ∧ (ext.exec c 0 s.world = none →
        (_syscall cfg ext (cfg.sysno l) arg1 arg2 arg3 arg4 arg5 arg6 s).obs
          = (none, 0, s.log ++ [⟨c, none⟩])) := by
  cases l
  case OE_SYS_exit_group => exact absurd rfl hgroup
  case OE_SYS_getcwd => exact absurd rfl hcwd
  case OE_SYS_exit =>
    apply exists_call_of_obs ext (.oe_exit (castInt arg1)) _ _ _ _ rfl
    unfold _syscall
    rw [classify_sysno cfg hd]
    simp only [invoke, hexit rfl (castInt arg1) 0 s.world]
  case OE_SYS_creat =>
    apply exists_call_of_obs ext (.oe_open (castPtr arg1)
          ((cfg.OE_O_CREAT ||| cfg.OE_O_WRONLY ||| cfg.OE_O_TRUNC : Nat) : Int)
          (castUInt arg2)) _ _ _ _ rfl
    have h := hcreat rfl
    unfold _syscall
    rw [classify_sysno cfg hd]
    simp only [invoke]
    cases hx : ext.exec (.oe_open (castPtr arg1)
          ((cfg.OE_O_CREAT ||| cfg.OE_O_WRONLY ||| cfg.OE_O_TRUNC : Nat) : Int)
          (castUInt arg2)) 0 s.world with
    | none => rfl
    | some rep =>
      have hne := h rep hx
      simp only [hne, if_false]
  case OE_SYS_open =>
    apply exists_call_of_obs ext (.oe_open (castPtr arg1) (castInt arg2) (castUInt arg3))
      _ _ _ _ rfl
    unfold _syscall
    rw [classify_sysno cfg hd]
    simp only [ite_self]
  case OE_SYS_stat =>
    apply exists_call_of_obs ext (.oe_stat (castPtr arg1)) _ _ _ _ rfl
    have h := hstat rfl
    unfold _syscall
    rw [classify_sysno cfg hd]
    simp only [invoke]
    cases hx : ext.exec (.oe_stat (castPtr arg1)) 0 s.world with
    | none => rfl
    | some rep =>
      have hne := h rep hx
      cases hm : ext.memcpy_stat (castPtr arg2) rep.world with
      | none => exact absurd hm hne
      | some w =>
        simp only [hm]
        rfl
  case OE_SYS_epoll_pwait =>
    cases hs : cfg.SUPPORT_ENCLAVE_SIGNALS
    · apply exists_call_of_obs ext
        (.oe_epoll_wait (castInt arg1) (castPtr arg2) (castInt arg3) (castInt arg4))
        _ _ _ _ (by simp only [correspondingCall, hs]; rfl)
      unfold _syscall
      rw [classify_sysno cfg hd]
      simp only [hs]
      rfl
    · apply exists_call_of_obs ext
        (.oe_epoll_pwait (castInt arg1) (castPtr arg2) (castInt arg3) (castInt arg4)
          (castPtr arg5))
        _ _ _ _ (by simp only [correspondingCall, hs]; rfl)
      unfold _syscall
      rw [classify_sysno cfg hd]
      simp only [hs]
      rfl
  all_goals
    exact exists_call_of_obs ext _ _ _ _ _ rfl
      (by unfold _syscall; rw [classify_sysno cfg hd])

/-- C3 as stated fails on four codes under the Linux numbering.
`OE_SYS_exit_group` (231) makes no external call. `OE_SYS_getcwd` (79) with
buffer 4096 and size 100 returns 100 although `oe_getcwd` returned 4096.
`OE_SYS_exit` (60) hands over to `oe_exit` and returns nothing. `OE_SYS_stat`
(4) with the unmapped address 100 in slot 2 is ended by the copy of the stat
buffer after `oe_stat` returned 0. In each case there is no call `c` with
reply `rep` such that the dispatcher logged exactly `c` and returned `rep.ret`
with `oe_errno = rep.err`. -/
theorem single_call_fails_on_four_codes :
    (¬ ∃ c rep, sampleExtern.exec c 0 sampleState.world = some rep ∧
        (_syscall linuxConfig sampleExtern 231 0 0 0 0 0 0 sampleState).obs
          = (some rep.ret, rep.err,
             sampleState.log ++ [⟨c, some (rep.ret, rep.err)⟩]))
    ∧ (¬ ∃ c rep, sampleExtern.exec c 0 sampleState.world = some rep ∧
        (_syscall linuxConfig sampleExtern 79 4096 100 0 0 0 0 sampleState).obs
          = (some rep.ret, rep.err,
             sampleState.log ++ [⟨c, some (rep.ret, rep.err)⟩]))
    ∧ (¬ ∃ c rep, sampleExtern.exec c 0 sampleState.world = some rep ∧
        (_syscall linuxConfig sampleExtern 60 0 0 0 0 0 0 sampleState).obs
          = (some rep.ret, rep.err,
             sampleState.log ++ [⟨c, some (rep.ret, rep.err)⟩]))
    ∧ (¬ ∃ c rep, sampleExtern.exec c 0 sampleState.world = some rep ∧
        (_syscall linuxConfig sampleExtern 4 4096 100 0 0 0 0 sampleState).obs
          = (some rep.ret, rep.err,
             sampleState.log ++ [⟨c, some (rep.ret, rep.err)⟩])) := by
  refine ⟨?_, ?_, ?_, ?_⟩
  · rintro ⟨c, rep, _, h⟩
    have hrun : (_syscall linuxConfig sampleExtern 231 0 0 0 0 0 0 sampleState).obs
        = (some 0, 0, []) := rfl
    rw [hrun] at h
    simp [sampleState] at h
  · rintro ⟨c, rep, _, h⟩
    have hrun : (_syscall linuxConfig sampleExtern 79 4096 100 0 0 0 0 sampleState).obs
        = (some 100, 0, [⟨.oe_getcwd 4096 100, some (4096, 0)⟩]) := rfl
    rw [hrun] at h
    simp [sampleState] at h
    obtain ⟨h1, _, _, h3, _⟩ := h
    omega
  · rintro ⟨c, rep, _, h⟩
    have hrun : (_syscall linuxConfig sampleExtern 60 0 0 0 0 0 0 sampleState).obs
        = (none, 0, [⟨.oe_exit 0, none⟩]) := rfl
    rw [hrun] at h
    simp at h
  · rintro ⟨c, rep, _, h⟩
    have hrun : (_syscall linuxConfig sampleExtern 4 4096 100 0 0 0 0 sampleState).obs
        = (none, 0, [⟨.oe_stat 4096, some (0, 0)⟩]) := rfl
    rw [hrun] at h
    simp at h

/-- Witness for C3 (amended), under the Linux numbering: `OE_SYS_creat` (85)
on the path at address 4096, which `oe_open` opens without touching
`oe_errno`; `OE_SYS_stat` (4) with the mapped destination 8192; and
`OE_SYS_exit` (60), whose `oe_exit` never returns. -/
theorem recognized_code_single_call_witness :
    (∃ c : Call, correspondingCall linuxConfig OE_SYS_creat 4096 420 0 0 0 0 = some c
      ∧ (∀ rep, sampleExtern.exec c 0 sampleState.world = some rep →
        (_syscall linuxConfig sampleExtern (linuxConfig.sysno OE_SYS_creat)
            4096 420 0 0 0 0 sampleState).obs
          = (some rep.ret, rep.err, sampleState.log ++ [⟨c, some (rep.ret, rep.err)⟩]))
      ∧ (sampleExtern.exec c 0 sampleState.world = none →
        (_syscall linuxConfig sampleExtern (linuxConfig.sysno OE_SYS_creat)
            4096 420 0 0 0 0 sampleState).obs
          = (none, 0, sampleState.log ++ [⟨c, none⟩])))
    ∧ (∃ c : Call, correspondingCall linuxConfig OE_SYS_stat 4096 8192 0 0 0 0 = some c
      ∧ (∀ rep, sampleExtern.exec c 0 sampleState.world = some rep →
        (_syscall linuxConfig sampleExtern (linuxConfig.sysno OE_SYS_stat)
            4096 8192 0 0 0 0 sampleState).obs
          = (some rep.ret, rep.err, sampleState.log ++ [⟨c, some (rep.ret, rep.err)⟩]))
      ∧ (sampleExtern.exec c 0 sampleState.world = none →
        (_syscall linuxConfig sampleExtern (linuxConfig.sysno OE_SYS_stat)
            4096 8192 0 0 0 0 sampleState).obs
          = (none, 0, sampleState.log ++ [⟨c, none⟩])))
    ∧ (∃ c : Call, correspondingCall linuxConfig OE_SYS_exit 7 0 0 0 0 0 = some c
      ∧ (∀ rep, sampleExtern.exec c 0 sampleState.world = some rep →
        (_syscall linuxConfig sampleExtern (linuxConfig.sysno OE_SYS_exit)
            7 0 0 0 0 0 sampleState).obs
          = (some rep.ret, rep.err, sampleState.log ++ [⟨c, some (rep.ret, rep.err)⟩]))
      ∧ (sampleExtern.exec c 0 sampleState.world = none →
        (_syscall linuxConfig sampleExtern (linuxConfig.sysno OE_SYS_exit)
            7 0 0 0 0 0 sampleState).obs
          = (none, 0, sampleState.log ++ [⟨c, none⟩]))) :=
  ⟨recognized_code_single_call linuxConfig sampleExtern OE_SYS_creat 4096 420 0 0 0 0
      sampleState (by decide) (by decide) (by decide) (fun h => absurd h (by decide))
      (fun _ rep h => by
        have hrep : rep = ⟨3, 0, 1⟩ := (Option.some.inj h).symm
        rw [hrep]
        decide)
      (fun h => absurd h (by decide)),
   recognized_code_single_call linuxConfig sampleExtern OE_SYS_stat 4096 8192 0 0 0 0
      sampleState (by decide) (by decide) (by decide) (fun h => absurd h (by decide))
      (fun h => absurd h (by decide))
      (fun _ rep h => by
        have hrep : rep = ⟨0, 0, 1⟩ := (Option.some.inj h).symm
        rw [hrep]
        exact fun hm => Option.noConfusion hm),
   recognized_code_single_call linuxConfig sampleExtern OE_SYS_exit 7 0 0 0 0 0
      sampleState (by decide) (by decide) (by decide) (fun _ _ _ _ => rfl)
      (fun h => absurd h (by decide)) (fun h => absurd h (by decide))⟩

/-- C4: for every case label other than `OE_SYS_creat`, when `_syscall`
returns, either no external call was made (only `OE_SYS_exit_group`, and then
`oe_errno = 0`), or `oe_errno` is exactly the value the last external call of
the dispatch came back with; except for `OE_SYS_exit` that call is the only
one, entered with `oe_errno = 0` in the caller's world. In particular `OE_SYS_unlink` and `OE_SYS_open`
return -1 with `oe_errno = ENOENT` when their device operation fails with
`ENOENT`. -/
theorem errno_passed_through {σ : Type} (cfg : Config) (ext : Extern σ)
    (arg1 arg2 arg3 arg4 arg5 arg6 : Int) (s : State σ) (hd : cfg.distinct) :
    (∀ (l : Label) (ret : Int) (s' : State σ), l ≠ OE_SYS_creat →
      _syscall cfg ext (cfg.sysno l) arg1 arg2 arg3 arg4 arg5 arg6 s = .returned ret s' →
      (l = OE_SYS_exit_group ∧ s'.log = s.log ∧ s'.oe_errno = 0)
      ∨ ∃ (mid : List Event) (c : Call) (e0 : Int) (w0 : σ) (rep : Reply σ),
          ext.exec c e0 w0 = some rep
          ∧ s'.log = s.log ++ mid ++ [⟨c, some (rep.ret, rep.err)⟩]
          ∧ s'.oe_errno = rep.err
          ∧ (l ≠ OE_SYS_exit → mid = [] ∧ e0 = 0 ∧ w0 = s.world))
    ∧ (∀ w : σ, ext.exec (.oe_unlink (castPtr arg1)) 0 s.world = some ⟨-1, cfg.ENOENT, w⟩ →
        _syscall cfg ext (cfg.sysno OE_SYS_unlink) arg1 arg2 arg3 arg4 arg5 arg6 s
          = .returned (-1)
              { oe_errno := cfg.ENOENT, world := w,
                log := s.log ++ [⟨.oe_unlink (castPtr arg1), some (-1, cfg.ENOENT)⟩] })
    ∧ (∀ w : σ,
        ext.exec (.oe_open (castPtr arg1) (castInt arg2) (castUInt arg3)) 0 s.world
          = some ⟨-1, cfg.ENOENT, w⟩ →
        _syscall cfg ext (cfg.sysno OE_SYS_open) arg1 arg2 arg3 arg4 arg5 arg6 s
          = .returned (-1)
              { oe_errno := cfg.ENOENT, world := w,
                log := s.log ++ [⟨.oe_open (castPtr arg1) (castInt arg2) (castUInt arg3),
                  some (-1, cfg.ENOENT)⟩] }) := by
  refine ⟨?_, ?_, ?_⟩
  · intro l ret s' hl h
    rcases errno_after_return cfg ext hd l arg1 arg2 arg3 arg4 arg5 arg6 s s' ret h with
      h0 | ⟨mid, c, e0, w0, rep, hx, hlog, herr, hone⟩
    · exact Or.inl h0
    · refine Or.inr ⟨mid, c, e0, w0, rep, hx, hlog, ?_, hone⟩
      rw [herr]
      simp [hl]
  · intro w hx
    unfold _syscall
    rw [classify_sysno cfg hd]
    simp only [invoke, hx]
  · intro w hx
    unfold _syscall
    rw [classify_sysno cfg hd]
    simp only [invoke, hx, ite_self]

/-- Witness for C4: unlinking and opening a missing path under the Linux
numbering (`ENOENT` = 2) report 2, not `ENOSYS` = 38. -/
theorem errno_passed_through_witness :
    _syscall linuxConfig sampleExtern 87 4096 0 0 0 0 0 sampleState
        = .returned (-1)
            { oe_errno := 2, world := 0, log := [⟨.oe_unlink 4096, some (-1, 2)⟩] }
    ∧ _syscall linuxConfig sampleExtern 2 0 0 0 0 0 0 sampleState
        = .returned (-1)
            { oe_errno := 2, world := 0, log := [⟨.oe_open 0 0 0, some (-1, 2)⟩] } :=
  ⟨(errno_passed_through linuxConfig sampleExtern 4096 0 0 0 0 0 sampleState
      (by decide)).2.1 0 rfl,
   (errno_passed_through linuxConfig sampleExtern 0 0 0 0 0 0 sampleState
      (by decide)).2.2 0 rfl⟩

/-- C5: the aliased codes behave as their canonical counterparts. For all
argument words and every state, the whole outcome (result, `oe_errno`, world
and logged device call with its typed arguments) of `OE_SYS_getdents64`
equals that of `OE_SYS_getdents`, `OE_SYS_eventfd2` that of `OE_SYS_eventfd`,
`OE_SYS_epoll_wait_old` that of `OE_SYS_epoll_wait` and
`OE_SYS_epoll_ctl_old` that of `OE_SYS_epoll_ctl`. -/
theorem aliased_codes_equal {σ : Type} (cfg : Config) (ext : Extern σ)
    (arg1 arg2 arg3 arg4 arg5 arg6 : Int) (s : State σ) (hd : cfg.distinct) :
    _syscall cfg ext (cfg.sysno OE_SYS_getdents64) arg1 arg2 arg3 arg4 arg5 arg6 s
        = _syscall cfg ext (cfg.sysno OE_SYS_getdents) arg1 arg2 arg3 arg4 arg5 arg6 s
    ∧ _syscall cfg ext (cfg.sysno OE_SYS_eventfd2) arg1 arg2 arg3 arg4 arg5 arg6 s
        = _syscall cfg ext (cfg.sysno OE_SYS_eventfd) arg1 arg2 arg3 arg4 arg5 arg6 s
    ∧ _syscall cfg ext (cfg.sysno OE_SYS_epoll_wait_old) arg1 arg2 arg3 arg4 arg5 arg6 s
        = _syscall cfg ext (cfg.sysno OE_SYS_epoll_wait) arg1 arg2 arg3 arg4 arg5 arg6 s
    ∧ _syscall cfg ext (cfg.sysno OE_SYS_epoll_ctl_old) arg1 arg2 arg3 arg4 arg5 arg6 s
        = _syscall cfg ext (cfg.sysno OE_SYS_epoll_ctl) arg1 arg2 arg3 arg4 arg5 arg6 s := by
  refine ⟨?_, ?_, ?_, ?_⟩ <;>
  · unfold _syscall
    rw [classify_sysno cfg hd, classify_sysno cfg hd]

/-- Witness for C5: the four alias pairs under the Linux numbering
(217/78, 290/284, 215/232, 214/233). -/
theorem aliased_codes_equal_witness :
    _syscall linuxConfig sampleExtern 217 5 4096 64 7 8 9 sampleState
        = _syscall linuxConfig sampleExtern 78 5 4096 64 7 8 9 sampleState
    ∧ _syscall linuxConfig sampleExtern 290 5 4096 64 7 8 9 sampleState
        = _syscall linuxConfig sampleExtern 284 5 4096 64 7 8 9 sampleState
    ∧ _syscall linuxConfig sampleExtern 215 5 4096 64 7 8 9 sampleState
        = _syscall linuxConfig sampleExtern 232 5 4096 64 7 8 9 sampleState
    ∧ _syscall linuxConfig sampleExtern 214 5 4096 64 7 8 9 sampleState
        = _syscall linuxConfig sampleExtern 233 5 4096 64 7 8 9 sampleState :=
  aliased_codes_equal linuxConfig sampleExtern 5 4096 64 7 8 9 sampleState (by decide)

/-- C6: the error state is overwritten on every dispatch. (a) For every code,
recognized or not, the outcome of `_syscall` is the same whatever `oe_errno`
held before the call. (b) For a recognized code, when `_syscall` returns and
every external call logged by this dispatch came back with `oe_errno = 0`,
the final `oe_errno` is 0. (c) `OE_SYS_exit_group` returns 0 with
`oe_errno = 0`, making no call and leaving the world alone. -/
theorem errno_overwritten {σ : Type} (cfg : Config) (ext : Extern σ)
    (arg1 arg2 arg3 arg4 arg5 arg6 : Int) (s : State σ)
    (hd : cfg.distinct) (hne : cfg.ENOENT ≠ 0) :
    (∀ (num e e' : Int),
      _syscall cfg ext num arg1 arg2 arg3 arg4 arg5 arg6 { s with oe_errno := e }
        = _syscall cfg ext num arg1 arg2 arg3 arg4 arg5 arg6 { s with oe_errno := e' })
    ∧ (∀ (l : Label) (ret : Int) (s' : State σ),
        _syscall cfg ext (cfg.sysno l) arg1 arg2 arg3 arg4 arg5 arg6 s = .returned ret s' →
        (∀ ev ∈ s'.log.drop s.log.length, ∀ r e, ev.reply = some (r, e) → e = 0) →
        s'.oe_errno = 0)
    ∧ _syscall cfg ext (cfg.sysno OE_SYS_exit_group) arg1 arg2 arg3 arg4 arg5 arg6 s
        = .returned 0 { oe_errno := 0, world := s.world, log := s.log } := by
  refine ⟨?_, ?_, ?_⟩
  · intro num e e'
    rfl
  · intro l ret s' h hq
    rcases errno_after_return cfg ext hd l arg1 arg2 arg3 arg4 arg5 arg6 s s' ret h with
      h0 | ⟨mid, c, e0, w0, rep, _, hlog, herr, _⟩
    · exact h0.2.2
    · have hz : rep.err = 0 := by
        apply hq ⟨c, some (rep.ret, rep.err)⟩ _ rep.ret rep.err rfl
        rw [hlog, List.append_assoc, List.drop_left]
        simp
      rw [herr, hz]
      have hne' : ¬ (0 = cfg.ENOENT) := fun h0 => hne h0.symm
      simp [hne']
  · unfold _syscall
    rw [classify_sysno cfg hd]

/-- Witness for C6: under the Linux numbering, `OE_SYS_exit_group` (231) from
a state whose stale error is 5 returns 0 with `oe_errno = 0`, and a dispatch
of `OE_SYS_close` (3) started with error 5 ends as one started with error 9. -/
theorem errno_overwritten_witness :
    _syscall linuxConfig sampleExtern 231 1 2 3 4 5 6 sampleState
        = .returned 0 { oe_errno := 0, world := 0, log := [] }
    ∧ _syscall linuxConfig sampleExtern 3 1 2 3 4 5 6 { sampleState with oe_errno := 5 }
        = _syscall linuxConfig sampleExtern 3 1 2 3 4 5 6 { sampleState with oe_errno := 9 } :=
  ⟨(errno_overwritten linuxConfig sampleExtern 1 2 3 4 5 6 sampleState
      (by decide) (by decide)).2.2,
   (errno_overwritten linuxConfig sampleExtern 1 2 3 4 5 6 sampleState
      (by decide) (by decide)).1 3 5 9⟩

/-- C7: under the contract of `oe_exit`, dispatching `OE_SYS_exit` hands
`(int)arg1` to `oe_exit` and ends there: `_syscall` produces no result, the
only external call logged is `oe_exit(status)` without a reply, and the
`return ret` of the `done` label is not reached. -/
theorem exit_never_returns {σ : Type} (cfg : Config) (ext : Extern σ)
    (arg1 arg2 arg3 arg4 arg5 arg6 : Int) (s : State σ)
    (hd : cfg.distinct) (hexit : ext.exitNeverReturns) :
    _syscall cfg ext (cfg.sysno OE_SYS_exit) arg1 arg2 arg3 arg4 arg5 arg6 s
        = .noreturn { oe_errno := 0, world := s.world,
                      log := s.log ++ [⟨.oe_exit (castInt arg1), none⟩] }
    ∧ ∀ (ret : Int) (s' : State σ),
        _syscall cfg ext (cfg.sysno OE_SYS_exit) arg1 arg2 arg3 arg4 arg5 arg6 s
          ≠ .returned ret s' := by
  have hrun : _syscall cfg ext (cfg.sysno OE_SYS_exit) arg1 arg2 arg3 arg4 arg5 arg6 s
      = .noreturn { oe_errno := 0, world := s.world,
                    log := s.log ++ [⟨.oe_exit (castInt arg1), none⟩] } := by
    unfold _syscall
    rw [classify_sysno cfg hd]
    simp only [invoke, hexit (castInt arg1) 0 s.world]
  refine ⟨hrun, ?_⟩
  intro ret s' h
  rw [hrun] at h
  cases h

/-- Witness for C7: `OE_SYS_exit` (60) with status word `2^32 + 7` under the
Linux numbering; `oe_exit` is handed 7. -/
theorem exit_never_returns_witness :
    _syscall linuxConfig sampleExtern 60 4294967303 0 0 0 0 0 sampleState
        = .noreturn { oe_errno := 0, world := 0, log := [⟨.oe_exit 7, none⟩] }
    ∧ ∀ (ret : Int) (s' : State Nat),
        _syscall linuxConfig sampleExtern 60 4294967303 0 0 0 0 0 sampleState
          ≠ .returned ret s' :=
  exit_never_returns linuxConfig sampleExtern 4294967303 0 0 0 0 0 sampleState
    (by decide) (fun _ _ _ => rfl)

/-- C8 (amended): slots a case does not use are not read. For every case
label, two dispatches in the same state that agree on the slots listed by
`forwarded`, and for `OE_SYS_stat` also on slot 2 (the destination of the copy
of the stat buffer), have the same result, the same `oe_errno` and the same
logged device call, whatever the other slots hold. In particular the whole
outcome of close/dup/unlink/rmdir/chdir/umount2 depends on slot 1 only (the
flags of `umount2` in slot 2 are not passed on), and the whole outcome of
getpid/getuid/geteuid/getppid/getpgrp/exit_group depends on no slot. -/
theorem unused_slots_not_read {σ : Type} (cfg : Config) (ext : Extern σ)
    (s : State σ) (hd : cfg.distinct) :
    (∀ (l : Label) (a1 a2 a3 a4 a5 a6 b1 b2 b3 b4 b5 b6 : Int),
      (1 ∈ forwarded cfg l → a1 = b1) → (2 ∈ forwarded cfg l → a2 = b2) →
      (3 ∈ forwarded cfg l → a3 = b3) → (4 ∈ forwarded cfg l → a4 = b4) →
      (5 ∈ forwarded cfg l → a5 = b5) → (6 ∈ forwarded cfg l → a6 = b6) →
      (l = OE_SYS_stat → a2 = b2) →
      (_syscall cfg ext (cfg.sysno l) a1 a2 a3 a4 a5 a6 s).obs
        = (_syscall cfg ext (cfg.sysno l) b1 b2 b3 b4 b5 b6 s).obs)
    ∧ (∀ l ∈ [OE_SYS_close, OE_SYS_dup, OE_SYS_unlink, OE_SYS_rmdir, OE_SYS_chdir,
               OE_SYS_umount2],
        ∀ (a1 a2 a3 a4 a5 a6 b2 b3 b4 b5 b6 : Int),
          _syscall cfg ext (cfg.sysno l) a1 a2 a3 a4 a5 a6 s
            = _syscall cfg ext (cfg.sysno l) a1 b2 b3 b4 b5 b6 s)
    ∧ (∀ l ∈ [OE_SYS_getpid, OE_SYS_getuid, OE_SYS_geteuid, OE_SYS_getppid,
               OE_SYS_getpgrp, OE_SYS_exit_group],
        ∀ (a1 a2 a3 a4 a5 a6 b1 b2 b3 b4 b5 b6 : Int),
          _syscall cfg ext (cfg.sysno l) a1 a2 a3 a4 a5 a6 s
            = _syscall cfg ext (cfg.sysno l) b1 b2 b3 b4 b5 b6 s) := by
  refine ⟨?_, ?_, ?_⟩
  · intro l a1 a2 a3 a4 a5 a6 b1 b2 b3 b4 b5 b6 h1 h2 h3 h4 h5 h6 hs2
    cases l
    case OE_SYS_stat =>
      have e1 : a1 = b1 := h1 (by simp [forwarded])
      have e2 : a2 = b2 := hs2 rfl
      subst e1 e2
      unfold _syscall
      rw [classify_sysno cfg hd]
    case OE_SYS_epoll_pwait =>
      have e1 : a1 = b1 := h1 (by simp only [forwarded]; split <;> simp)
      have e2 : a2 = b2 := h2 (by simp only [forwarded]; split <;> simp)
      have e3 : a3 = b3 := h3 (by simp only [forwarded]; split <;> simp)
      have e4 : a4 = b4 := h4 (by simp only [forwarded]; split <;> simp)
      subst e1 e2 e3 e4
      unfold _syscall
      rw [classify_sysno cfg hd]
      cases hs : cfg.SUPPORT_ENCLAVE_SIGNALS
      · rfl
      · have e5 : a5 = b5 := h5 (by simp [forwarded, hs])
        subst e5
        rfl
    all_goals
      simp only [forwarded, List.mem_cons, List.mem_singleton, List.not_mem_nil,
        OfNat.ofNat_ne_one, OfNat.one_ne_ofNat, Nat.reduceEqDiff, true_or, or_true,
        or_false, false_or, forall_const, false_implies, true_implies, or_self]
        at h1 h2 h3 h4 h5 h6
      subst_vars
      unfold _syscall
      rw [classify_sysno cfg hd]
  · intro l hl a1 a2 a3 a4 a5 a6 b2 b3 b4 b5 b6
    simp only [List.mem_cons, List.mem_singleton, List.not_mem_nil, or_false] at hl
    rcases hl with rfl | rfl | rfl | rfl | rfl | rfl <;>
    · unfold _syscall
      rw [classify_sysno cfg hd]
  · intro l hl a1 a2 a3 a4 a5 a6 b1 b2 b3 b4 b5 b6
    simp only [List.mem_cons, List.mem_singleton, List.not_mem_nil, or_false] at hl
    rcases hl with rfl | rfl | rfl | rfl | rfl | rfl <;>
    · unfold _syscall
      rw [classify_sysno cfg hd]

/-- C8 as stated fails for `OE_SYS_stat` (4 under the Linux numbering): only
slot 1 is forwarded to `oe_stat`, yet slot 2 is read as the destination of the
copy of the stat buffer. With the same path in slot 1, the dispatch with the
unmapped address 100 in slot 2 is ended by the copy, and the dispatch with the
mapped address 536871012 returns 0. -/
theorem stat_result_depends_on_slot_two :
    forwarded linuxConfig OE_SYS_stat = [1]
    ∧ (_syscall linuxConfig sampleExtern 4 4096 100 0 0 0 0 sampleState).obs
        = (none, 0, [⟨.oe_stat 4096, some (0, 0)⟩])
    ∧ (_syscall linuxConfig sampleExtern 4 4096 536871012 0 0 0 0 sampleState).obs
        = (some 0, 0, [⟨.oe_stat 4096, some (0, 0)⟩])
    ∧ ¬ (∀ (a1 a2 a3 a4 a5 a6 b1 b2 b3 b4 b5 b6 : Int),
      (1 ∈ forwarded linuxConfig OE_SYS_stat → a1 = b1) →
      (2 ∈ forwarded linuxConfig OE_SYS_stat → a2 = b2) →
      (3 ∈ forwarded linuxConfig OE_SYS_stat → a3 = b3) →
      (4 ∈ forwarded linuxConfig OE_SYS_stat → a4 = b4) →
      (5 ∈ forwarded linuxConfig OE_SYS_stat → a5 = b5) →
      (6 ∈ forwarded linuxConfig OE_SYS_stat → a6 = b6) →
      (_syscall linuxConfig sampleExtern (linuxConfig.sysno OE_SYS_stat)
          a1 a2 a3 a4 a5 a6 sampleState).obs
        = (_syscall linuxConfig sampleExtern (linuxConfig.sysno OE_SYS_stat)
          b1 b2 b3 b4 b5 b6 sampleState).obs) := by
  refine ⟨rfl, rfl, rfl, ?_⟩
  intro h
  have hbad := h 4096 100 0 0 0 0 4096 536871012 0 0 0 0
    (fun _ => rfl) (fun h2 => absurd h2 (by decide)) (fun _ => rfl) (fun _ => rfl)
    (fun _ => rfl) (fun _ => rfl)
  have h1 : (_syscall linuxConfig sampleExtern (linuxConfig.sysno OE_SYS_stat)
      4096 100 0 0 0 0 sampleState).obs = (none, 0, [⟨.oe_stat 4096, some (0, 0)⟩]) := rfl
  have h2 : (_syscall linuxConfig sampleExtern (linuxConfig.sysno OE_SYS_stat)
      4096 536871012 0 0 0 0 sampleState).obs
        = (some 0, 0, [⟨.oe_stat 4096, some (0, 0)⟩]) := rfl
  rw [h1, h2] at hbad
  simp at hbad

/-- Witness for C8 (amended): under the Linux numbering, `OE_SYS_umount2`
(166) gives the same outcome whatever slots 2 to 6 hold, and `OE_SYS_stat`
(4) with the same slots 1 and 2 gives the same result, error and logged call
whatever slots 3 to 6 hold. -/
theorem unused_slots_not_read_witness :
    _syscall linuxConfig sampleExtern 166 4096 1 2 3 4 5 sampleState
        = _syscall linuxConfig sampleExtern 166 4096 9 9 9 9 9 sampleState
    ∧ (_syscall linuxConfig sampleExtern 4 4096 8192 2 3 4 5 sampleState).obs
        = (_syscall linuxConfig sampleExtern 4 4096 8192 9 9 9 9 sampleState).obs :=
  ⟨(unused_slots_not_read linuxConfig sampleExtern sampleState (by decide)).2.1
      OE_SYS_umount2 (by simp) 4096 1 2 3 4 5 9 9 9 9 9,
   (unused_slots_not_read linuxConfig sampleExtern sampleState (by decide)).1
      OE_SYS_stat 4096 8192 2 3 4 5 4096 8192 9 9 9 9
      (fun _ => rfl) (fun _ => rfl) (fun h => absurd h (by decide))
      (fun h => absurd h (by decide)) (fun h => absurd h (by decide))
      (fun h => absurd h (by decide)) (fun _ => rfl)⟩

/-- C9: the result of `OE_SYS_getcwd` is not the return value of `oe_getcwd`.
When `oe_getcwd(buf, size)` comes back with pointer `p`, error `e` and world
`w`, `_syscall` returns -1 if `p` is null and otherwise the word passed in
slot 2 itself, with `oe_errno = e`; so when `p` is not null and the size seen
by `oe_getcwd` is at least `2^63` (slot 2 negative), the result is negative. -/
theorem getcwd_returns_size {σ : Type} (cfg : Config) (ext : Extern σ)
    (arg1 arg2 arg3 arg4 arg5 arg6 : Int) (s : State σ) (p e : Int) (w : σ)
    (hd : cfg.distinct) (hlong : isLong arg2)
    (hx : ext.exec (.oe_getcwd (castPtr arg1) (castULong arg2)) 0 s.world
      = some ⟨p, e, w⟩) :
    _syscall cfg ext (cfg.sysno OE_SYS_getcwd) arg1 arg2 arg3 arg4 arg5 arg6 s
        = .returned (if p = 0 then -1 else arg2)
            { oe_errno := e, world := w,
              log := s.log ++ [⟨.oe_getcwd (castPtr arg1) (castULong arg2), some (p, e)⟩] }
    ∧ (p ≠ 0 → 2 ^ 63 ≤ castULong arg2 →
        ∃ (ret : Int) (s' : State σ),
          _syscall cfg ext (cfg.sysno OE_SYS_getcwd) arg1 arg2 arg3 arg4 arg5 arg6 s
            = .returned ret s' ∧ ret < 0) := by
  have hrun : _syscall cfg ext (cfg.sysno OE_SYS_getcwd) arg1 arg2 arg3 arg4 arg5 arg6 s
      = .returned (if p = 0 then -1 else arg2)
          { oe_errno := e, world := w,
            log := s.log ++ [⟨.oe_getcwd (castPtr arg1) (castULong arg2), some (p, e)⟩] } := by
    unfold _syscall
    rw [classify_sysno cfg hd]
    simp only [invoke, hx, castLong_castULong arg2 hlong]
    split <;> rfl
  refine ⟨hrun, ?_⟩
  intro hp hbig
  refine ⟨_, _, hrun, ?_⟩
  rw [if_neg hp]
  unfold isLong at hlong
  unfold castULong at hbig
  omega

/-- Witness for C9: `OE_SYS_getcwd` (79) with buffer 4096 and size word -8:
`oe_getcwd` is given size `2^64 - 8` and returns the buffer, and `_syscall`
returns -8. -/
theorem getcwd_returns_size_witness :
    _syscall linuxConfig sampleExtern 79 4096 (-8) 0 0 0 0 sampleState
        = .returned (-8)
            { oe_errno := 0, world := 1,
              log := [⟨.oe_getcwd 4096 18446744073709551608, some (4096, 0)⟩] }
    ∧ ((4096 : Int) ≠ 0 → (2 : Int) ^ 63 ≤ castULong (-8) →
        ∃ (ret : Int) (s' : State Nat),
          _syscall linuxConfig sampleExtern 79 4096 (-8) 0 0 0 0 sampleState
            = .returned ret s' ∧ ret < 0) :=
  getcwd_returns_size linuxConfig sampleExtern 4096 (-8) 0 0 0 0 sampleState 4096 0 1
    (by decide) (by decide) rfl

/-- C10: a slot cast to `int` reaches the device layer wrapped to 32 bits.
`castInt w` lies in `[-2^31, 2^31)` and differs from `w` by a multiple of
`2^32`; for close, dup, dup2, read, write and lseek, dispatching with
`w + k * 2^32` in slot 1 has the same outcome as dispatching with `w`; and each
of the six calls its device operation with descriptor `castInt w` (the other
arguments cast as in its arm) and returns what that call returns. -/
theorem fd_slot_truncated {σ : Type} (cfg : Config) (ext : Extern σ)
    (w k arg2 arg3 arg4 arg5 arg6 : Int) (s : State σ) (hd : cfg.distinct) :
    (-(2 ^ 31) ≤ castInt w ∧ castInt w < 2 ^ 31 ∧ (w - castInt w) % 2 ^ 32 = 0)
    ∧ (∀ l ∈ [OE_SYS_close, OE_SYS_dup, OE_SYS_dup2, OE_SYS_read, OE_SYS_write,
               OE_SYS_lseek],
        _syscall cfg ext (cfg.sysno l) (w + k * 2 ^ 32) arg2 arg3 arg4 arg5 arg6 s
          = _syscall cfg ext (cfg.sysno l) w arg2 arg3 arg4 arg5 arg6 s)
    ∧ (∀ rep : Reply σ, ext.exec (.oe_close (castInt w)) 0 s.world = some rep →
        _syscall cfg ext (cfg.sysno OE_SYS_close) (w + k * 2 ^ 32) arg2 arg3 arg4 arg5 arg6 s
          = .returned rep.ret
              { oe_errno := rep.err, world := rep.world,
                log := s.log ++ [⟨.oe_close (castInt w), some (rep.ret, rep.err)⟩] })
    ∧ (∀ rep : Reply σ, ext.exec (.oe_dup (castInt w)) 0 s.world = some rep →
        _syscall cfg ext (cfg.sysno OE_SYS_dup) (w + k * 2 ^ 32) arg2 arg3 arg4 arg5 arg6 s
          = .returned rep.ret
              { oe_errno := rep.err, world := rep.world,
                log := s.log ++ [⟨.oe_dup (castInt w), some (rep.ret, rep.err)⟩] })
    ∧ (∀ rep : Reply σ, ext.exec (.oe_dup2 (castInt w) (castInt arg2)) 0 s.world = some rep →
        _syscall cfg ext (cfg.sysno OE_SYS_dup2) (w + k * 2 ^ 32) arg2 arg3 arg4 arg5 arg6 s
          = .returned rep.ret
              { oe_errno := rep.err, world := rep.world,
                log := s.log ++ [⟨.oe_dup2 (castInt w) (castInt arg2), some (rep.ret, rep.err)⟩] })
    ∧ (∀ rep : Reply σ, ext.exec (.oe_read (castInt w) (castPtr arg2) (castULong arg3)) 0 s.world = some rep →
        _syscall cfg ext (cfg.sysno OE_SYS_read) (w + k * 2 ^ 32) arg2 arg3 arg4 arg5 arg6 s
          = .returned rep.ret
              { oe_errno := rep.err, world := rep.world,
                log := s.log ++ [⟨.oe_read (castInt w) (castPtr arg2) (castULong arg3), some (rep.ret, rep.err)⟩] })
    ∧ (∀ rep : Reply σ, ext.exec (.oe_write (castInt w) (castPtr arg2) (castULong arg3)) 0 s.world = some rep →
        _syscall cfg ext (cfg.sysno OE_SYS_write) (w + k * 2 ^ 32) arg2 arg3 arg4 arg5 arg6 s
          = .returned rep.ret
              { oe_errno := rep.err, world := rep.world,
                log := s.log ++ [⟨.oe_write (castInt w) (castPtr arg2) (castULong arg3), some (rep.ret, rep.err)⟩] })
    ∧ (∀ rep : Reply σ, ext.exec (.oe_lseek (castInt w) arg2 (castInt arg3)) 0 s.world = some rep →
        _syscall cfg ext (cfg.sysno OE_SYS_lseek) (w + k * 2 ^ 32) arg2 arg3 arg4 arg5 arg6 s
          = .returned rep.ret
              { oe_errno := rep.err, world := rep.world,
                log := s.log ++ [⟨.oe_lseek (castInt w) arg2 (castInt arg3), some (rep.ret, rep.err)⟩] }) := by
  refine ⟨?_, ?_, ?_, ?_, ?_, ?_, ?_, ?_⟩
  · unfold castInt
    omega
  · intro l hl
    simp only [List.mem_cons, List.mem_singleton, List.not_mem_nil, or_false] at hl
    rcases hl with rfl | rfl | rfl | rfl | rfl | rfl <;>
    · unfold _syscall
      rw [classify_sysno cfg hd]
      simp only [castInt_add_mul]
  all_goals
    intro rep hx
    unfold _syscall
    rw [classify_sysno cfg hd]
    simp only [invoke, castInt_add_mul, hx]

/-- Witness for C10: under the Linux numbering, closing descriptor word
`3 + 2^32` is closing descriptor 3, and reading from descriptor word
`-1 + 2^32` is reading from descriptor -1. -/
theorem fd_slot_truncated_witness :
    _syscall linuxConfig sampleExtern 3 (3 + 1 * 2 ^ 32) 0 0 0 0 0 sampleState
        = .returned 0 { oe_errno := 0, world := 1, log := [⟨.oe_close 3, some (0, 0)⟩] }
    ∧ _syscall linuxConfig sampleExtern 0 (-1 + 1 * 2 ^ 32) 4096 16 0 0 0 sampleState
        = .returned 0
            { oe_errno := 0, world := 1, log := [⟨.oe_read (-1) 4096 16, some (0, 0)⟩] } :=
  ⟨(fd_slot_truncated linuxConfig sampleExtern 3 1 0 0 0 0 0 sampleState
      (by decide)).2.2.1 ⟨0, 0, 1⟩ rfl,
   (fd_slot_truncated linuxConfig sampleExtern (-1) 1 4096 16 0 0 0 sampleState
      (by decide)).2.2.2.2.2.1 ⟨0, 0, 1⟩ rfl⟩

end Syscall
